import Mathlib

/-!
Shallow embedding of `src/research/iot.py` (an agricultural IoT pipeline).
Sensor values and derived metrics are modelled as rationals; Python's
`round(x, 1)` is modelled as round-half-to-even on tenths (`round1`);
`StopIteration` from a failed `next(...)` lookup is modelled as `Option`
(for `analyze_data`) and as `Except` carrying the partially mutated
actuator state (for `control_actuators`, whose Python original mutates a
global dict in place before the CO2 lookup can fail).
-/

namespace Iot

inductive SensorType where
  | TEMPERATURE
  | SOIL_MOISTURE
  | LIGHT_INTENSITY
  | CO2_LEVEL
  | HUMIDITY
deriving DecidableEq, Fintype

inductive ActuatorType where
  | IRRIGATION
  | COOLING
  | VENTILATION
  | FERTILIZER_DOSER
deriving DecidableEq, Fintype

structure SensorParams where
  min : ℚ
  max : ℚ
  unit : String
deriving DecidableEq

/-- The `SENSORS` range/unit table of the source, as a lookup function. -/
def SENSORS : SensorType → SensorParams
  | .TEMPERATURE => ⟨20, 30, "°C"⟩
  | .SOIL_MOISTURE => ⟨30, 70, "%"⟩
  | .LIGHT_INTENSITY => ⟨0, 100, "lux"⟩
  | .CO2_LEVEL => ⟨300, 1000, "ppm"⟩
  | .HUMIDITY => ⟨40, 80, "%"⟩

/-- Iteration order of the `SENSORS` dict (Python dicts preserve insertion order). -/
def sensorOrder : List SensorType :=
  [.TEMPERATURE, .SOIL_MOISTURE, .LIGHT_INTENSITY, .CO2_LEVEL, .HUMIDITY]

structure Reading where
  sensor_type : SensorType
  value : ℚ
  unit : String
  timestamp : String
deriving DecidableEq

/-- Python's `round` to the nearest integer: round-half-to-even (banker's
rounding), as used on the rationals standing in for floats. -/
def pyRound (x : ℚ) : ℤ :=
  let f := x.floor
  let frac := x - f
  if frac < 1/2 then f
  else if 1/2 < frac then f + 1
  else if f % 2 = 0 then f else f + 1

/-- Python's `round(x, 1)`: round to one decimal place. -/
def round1 (x : ℚ) : ℚ := (pyRound (10 * x) : ℚ) / 10

/-- `read_sensors`: one reading per catalog entry, value drawn by the injected
randomness source (`draw`), rounded to one decimal, all stamped with one
shared timestamp. -/
def read_sensors (draw : SensorType → ℚ) (timestamp : String) : List Reading :=
  sensorOrder.map fun s =>
    { sensor_type := s
      value := round1 (draw s)
      unit := (SENSORS s).unit
      timestamp := timestamp }

/-- The `next(d["value"] for d in data if d["sensor_type"] == k.name)` lookup:
first matching reading's value, `none` when the generator is exhausted
(Python raises `StopIteration`). -/
def findValue (data : List Reading) (s : SensorType) : Option ℚ :=
  (data.find? fun d => decide (d.sensor_type = s)).map Reading.value

structure Metrics where
  dew_point : ℚ
  heat_index : ℚ
deriving DecidableEq

structure Predictions where
  crop_stress_risk : ℚ
  irrigation_needed : Bool
  optimal_watering : String
deriving DecidableEq

structure AnalysisResult where
  raw_data : List Reading
  metrics : Metrics
  predictions : Predictions
deriving DecidableEq

/-- `analyze_data`: extracts temperature, humidity and soil moisture (in that
order, failing like the Python `next` if one is absent; `crop_stress` is the
independent uniform random draw passed in explicitly). -/
def analyze_data (data : List Reading) (crop_stress : ℚ) : Option AnalysisResult := do
  let temp ← findValue data .TEMPERATURE
  let humidity ← findValue data .HUMIDITY
  let _moisture ← findValue data .SOIL_MOISTURE
  some
    { raw_data := data
      metrics :=
        { dew_point := round1 (temp - (100 - humidity) / 5)
          heat_index := round1 (temp + humidity * (1/10)) }
      predictions :=
        { crop_stress_risk := crop_stress
          irrigation_needed := decide (crop_stress > 7/10)
          optimal_watering := if crop_stress > 7/10 then "ASAP" else "6h" } }

/-- The global `actuators` dict: a boolean per actuator kind. -/
def ActuatorState : Type := ActuatorType → Bool

/-- `actuators[a] = True` on the Python dict. -/
def setTrue (st : ActuatorState) (a : ActuatorType) : ActuatorState :=
  fun b => if b = a then true else st b

/-- Initial actuator state: all `False`. -/
def initActuators : ActuatorState := fun _ => false

/-- `control_actuators`: the four if-statements in source order. The CO2
lookup can raise `StopIteration` after the first three rules have already
mutated the global dict, so failure (`Except.error`) carries the partially
mutated state. -/
def control_actuators (pd : AnalysisResult) (st : ActuatorState) :
    Except ActuatorState ActuatorState :=
  let st1 := if pd.predictions.irrigation_needed then setTrue st .IRRIGATION else st
  let st2 := if pd.metrics.heat_index > 30 then setTrue st1 .COOLING else st1
  let st3 := if pd.metrics.dew_point > 25 then setTrue st2 .VENTILATION else st2
  match findValue pd.raw_data .CO2_LEVEL with
  | none => Except.error st3
  | some v => Except.ok (if v < 400 then setTrue st3 .FERTILIZER_DOSER else st3)

structure Summary where
  totalCount : ℕ
  recentStressLevels : List ℚ
  advisory : String
deriving DecidableEq

/-- `business_report`: appends to `history`, and when the new length is a
multiple of 5 prints a report (modelled as the emitted `Summary`). -/
def business_report (pd : AnalysisResult) (history : List AnalysisResult) :
    List AnalysisResult × Option Summary :=
  let h := history ++ [pd]
  (h,
    if h.length % 5 = 0 then
      some
        { totalCount := h.length
          recentStressLevels :=
            (h.drop (h.length - 3)).map fun d => d.predictions.crop_stress_risk
          advisory := "Check irrigation valves" }
    else none)

def cloud_sync_interval : ℕ := 5

structure SyncReport where
  uploadedCount : ℕ
deriving DecidableEq

/-- `cloud_sync`: appends to `local_db`, and when the new length is a multiple
of `cloud_sync_interval` prints an upload message (modelled as the emitted
`SyncReport`); the buffer is never drained. -/
def cloud_sync (pd : AnalysisResult) (local_db : List AnalysisResult) :
    List AnalysisResult × Option SyncReport :=
  let db := local_db ++ [pd]
  (db,
    if db.length % cloud_sync_interval = 0 then some ⟨cloud_sync_interval⟩
    else none)

/-- The mutable process-wide state touched by stages 4-6 of a cycle. -/
structure SysState where
  actuators : ActuatorState
  history : List AnalysisResult
  local_db : List AnalysisResult

/-- Stages 3-6 of one iteration of the main loop (`analyze_data` →
`control_actuators` → `business_report` → `cloud_sync`), given the sensor
batch and the cycle's crop-stress draw. Stages 1-2 (`read_sensors`,
`send_mqtt`) touch none of the modelled state. An uncaught `StopIteration`
aborts the loop at the point it is raised; `Except.error` carries the state
at that point. -/
def runCycle (sensor_data : List Reading) (crop_stress : ℚ) (s : SysState) :
    Except SysState SysState :=
  match analyze_data sensor_data crop_stress with
  | none => Except.error s
  | some pd =>
    match control_actuators pd s.actuators with
    | Except.error act => Except.error { s with actuators := act }
    | Except.ok act =>
      Except.ok
        { actuators := act
          history := (business_report pd s.history).1
          local_db := (cloud_sync pd s.local_db).1 }

/-- Which actuator each rule of `control_actuators` switches on, given the CO2
value `v` found in the raw data. -/
def ruleFires (r : AnalysisResult) (v : ℚ) : ActuatorType → Bool
  | .IRRIGATION => r.predictions.irrigation_needed
  | .COOLING => decide (r.metrics.heat_index > 30)
  | .VENTILATION => decide (r.metrics.dew_point > 25)
  | .FERTILIZER_DOSER => decide (v < 400)

/-- The first three rules only (those evaluated before the CO2 lookup fails). -/
def ruleFires3 (r : AnalysisResult) : ActuatorType → Bool
  | .IRRIGATION => r.predictions.irrigation_needed
  | .COOLING => decide (r.metrics.heat_index > 30)
  | .VENTILATION => decide (r.metrics.dew_point > 25)
  | .FERTILIZER_DOSER => false

/-- The actuator state after a `control_actuators` call, whether it completed
or raised on the missing CO2 reading (the Python dict is mutated in place). -/
def afterState : Except ActuatorState ActuatorState → ActuatorState
  | .ok st => st
  | .error st => st

/-- A batch holding exactly one Temperature reading (25.0) and exactly one
Humidity reading (60.0) and nothing else. -/
def batchTH : List Reading :=
  [{ sensor_type := .TEMPERATURE, value := 25, unit := "°C", timestamp := "t0" },
   { sensor_type := .HUMIDITY, value := 60, unit := "%", timestamp := "t0" }]

/-- `batchTH` extended with a SoilMoisture reading; still no CO2 reading. -/
def batchTHM : List Reading :=
  [{ sensor_type := .TEMPERATURE, value := 25, unit := "°C", timestamp := "t0" },
   { sensor_type := .HUMIDITY, value := 60, unit := "%", timestamp := "t0" },
   { sensor_type := .SOIL_MOISTURE, value := 50, unit := "%", timestamp := "t0" }]

/-- A batch with one reading of every kind the analysis and decision stages
look up, CO2 at 500 ppm. -/
def batchFull : List Reading :=
  [{ sensor_type := .TEMPERATURE, value := 25, unit := "°C", timestamp := "t0" },
   { sensor_type := .HUMIDITY, value := 60, unit := "%", timestamp := "t0" },
   { sensor_type := .SOIL_MOISTURE, value := 50, unit := "%", timestamp := "t0" },
   { sensor_type := .CO2_LEVEL, value := 500, unit := "ppm", timestamp := "t0" }]

/-- A concrete analysis result over `batchFull` on which no decision rule
fires (heat index 29 ≤ 30, dew point 17 ≤ 25, no irrigation need, CO2 500). -/
def resultCalm : AnalysisResult :=
  { raw_data := batchFull
    metrics := { dew_point := 17, heat_index := 29 }
    predictions :=
      { crop_stress_risk := 0, irrigation_needed := false, optimal_watering := "6h" } }

/-- An analysis result used to exercise the aggregation stages. -/
def sampleResult : AnalysisResult :=
  { raw_data := []
    metrics := { dew_point := 17, heat_index := 29 }
    predictions :=
      { crop_stress_risk := 0, irrigation_needed := false, optimal_watering := "6h" } }

/-- An actuator state in which exactly Irrigation is on. -/
def stIrrOn : ActuatorState := fun a => decide (a = ActuatorType.IRRIGATION)

/-- A draw of every sensor's minimum value. -/
def draw0 : SensorType → ℚ := fun s => (SENSORS s).min

/-! Arithmetic facts about `pyRound` and `round1`. -/

theorem ratFloor_eq_intFloor (q : ℚ) : q.floor = ⌊q⌋ := by
  rw [Rat.floor_def', Rat.floor_def]

theorem pyRound_eq (x : ℚ) :
    pyRound x =
      if x - ⌊x⌋ < 1/2 then ⌊x⌋
      else if 1/2 < x - ⌊x⌋ then ⌊x⌋ + 1
      else if ⌊x⌋ % 2 = 0 then ⌊x⌋ else ⌊x⌋ + 1 := by
  unfold pyRound
  rw [ratFloor_eq_intFloor]

theorem pyRound_intCast (n : ℤ) : pyRound (n : ℚ) = n := by
  rw [pyRound_eq]
  norm_num

theorem round1_intCast (n : ℤ) : round1 (n : ℚ) = n := by
  unfold round1
  have h : (10 : ℚ) * n = ((10 * n : ℤ) : ℚ) := by push_cast; ring
  rw [h, pyRound_intCast]
  push_cast
  ring

theorem pyRound_mono {x y : ℚ} (h : x ≤ y) : pyRound x ≤ pyRound y := by
  rw [pyRound_eq, pyRound_eq]
  rcases lt_or_eq_of_le (Int.floor_le_floor h) with hlt | heq
  · split_ifs <;> omega
  · rw [← heq]
    have hfr : x - ⌊x⌋ ≤ y - ⌊x⌋ := by linarith
    split_ifs <;> first | omega | (exfalso; linarith)

theorem round1_mono {x y : ℚ} (h : x ≤ y) : round1 x ≤ round1 y := by
  unfold round1
  have h1 : pyRound (10 * x) ≤ pyRound (10 * y) :=
    pyRound_mono (by linarith)
  have h2 : (pyRound (10 * x) : ℚ) ≤ (pyRound (10 * y) : ℚ) := by
    exact_mod_cast h1
  exact (div_le_div_iff_of_pos_right (by norm_num)).mpr h2

theorem round1_int_bounds {m M : ℤ} {x : ℚ} (h1 : (m : ℚ) ≤ x) (h2 : x ≤ (M : ℚ)) :
    (m : ℚ) ≤ round1 x ∧ round1 x ≤ (M : ℚ) := by
  constructor
  · calc (m : ℚ) = round1 (m : ℚ) := (round1_intCast m).symm
      _ ≤ round1 x := round1_mono h1
  · calc round1 x ≤ round1 (M : ℚ) := round1_mono h2
      _ = (M : ℚ) := round1_intCast M

theorem round1_natCast_le {lo : ℕ} {x : ℚ} (h1 : (lo : ℚ) ≤ x) : (lo : ℚ) ≤ round1 x := by
  have hfix : round1 ((lo : ℤ) : ℚ) = ((lo : ℤ) : ℚ) := round1_intCast (lo : ℤ)
  push_cast at hfix
  calc (lo : ℚ) = round1 (lo : ℚ) := hfix.symm
    _ ≤ round1 x := round1_mono h1

theorem round1_le_natCast {hi : ℕ} {x : ℚ} (h2 : x ≤ (hi : ℚ)) : round1 x ≤ (hi : ℚ) := by
  have hfix : round1 ((hi : ℤ) : ℚ) = ((hi : ℤ) : ℚ) := round1_intCast (hi : ℤ)
  push_cast at hfix
  calc round1 x ≤ round1 (hi : ℚ) := round1_mono h2
    _ = (hi : ℚ) := hfix

/-! Basic facts about the lookup and the analysis function. -/

theorem find?_eq_head_filter {α : Type} (p : α → Bool) (l : List α) :
    l.find? p = (l.filter p).head? := by
  induction l with
  | nil => rfl
  | cons a l ih =>
    by_cases h : p a
    · rw [List.find?_cons_of_pos _ h, List.filter_cons_of_pos h, List.head?_cons]
    · rw [List.find?_cons_of_neg _ h, List.filter_cons_of_neg h, ih]

theorem findValue_of_filter {batch : List Reading} {s : SensorType} {t : ℚ}
    (h : (batch.filter fun d => decide (d.sensor_type = s)).map Reading.value = [t]) :
    findValue batch s = some t := by
  unfold findValue
  rw [find?_eq_head_filter]
  cases hf : batch.filter fun d => decide (d.sensor_type = s) with
  | nil => rw [hf] at h; simp at h
  | cons r rest =>
    rw [hf] at h
    cases rest with
    | nil =>
      simp at h
      simp [h]
    | cons r2 rest2 => simp at h

theorem findValue_isSome_iff (batch : List Reading) (s : SensorType) :
    (findValue batch s).isSome = true ↔ ∃ d ∈ batch, d.sensor_type = s := by
  unfold findValue
  simp [List.find?_isSome]

theorem analyze_data_eq {batch : List Reading} {t hu m cs : ℚ}
    (hT : findValue batch .TEMPERATURE = some t)
    (hH : findValue batch .HUMIDITY = some hu)
    (hM : findValue batch .SOIL_MOISTURE = some m) :
    analyze_data batch cs = some
      { raw_data := batch
        metrics :=
          { dew_point := round1 (t - (100 - hu) / 5)
            heat_index := round1 (t + hu * (1/10)) }
        predictions :=
          { crop_stress_risk := cs
            irrigation_needed := decide (cs > 7/10)
            optimal_watering := if cs > 7/10 then "ASAP" else "6h" } } := by
  unfold analyze_data
  rw [hT, hH, hM]
  rfl

theorem analyze_data_inv {batch : List Reading} {cs : ℚ} {r : AnalysisResult}
    (h : analyze_data batch cs = some r) :
    ∃ t hu m, findValue batch .TEMPERATURE = some t ∧
      findValue batch .HUMIDITY = some hu ∧
      findValue batch .SOIL_MOISTURE = some m ∧
      r = { raw_data := batch
            metrics :=
              { dew_point := round1 (t - (100 - hu) / 5)
                heat_index := round1 (t + hu * (1/10)) }
            predictions :=
              { crop_stress_risk := cs
                irrigation_needed := decide (cs > 7/10)
                optimal_watering := if cs > 7/10 then "ASAP" else "6h" } } := by
  cases hT : findValue batch .TEMPERATURE with
  | none => unfold analyze_data at h; rw [hT] at h; simp at h
  | some t =>
    cases hH : findValue batch .HUMIDITY with
    | none => unfold analyze_data at h; rw [hT, hH] at h; simp at h
    | some hu =>
      cases hM : findValue batch .SOIL_MOISTURE with
      | none => unfold analyze_data at h; rw [hT, hH, hM] at h; simp at h
      | some m =>
        rw [analyze_data_eq hT hH hM] at h
        exact ⟨t, hu, m, rfl, rfl, rfl, (Option.some_inj.mp h).symm⟩

theorem analyze_data_isSome (batch : List Reading) (cs : ℚ) :
    (analyze_data batch cs).isSome = true ↔
      (findValue batch .TEMPERATURE).isSome = true ∧
      (findValue batch .HUMIDITY).isSome = true ∧
      (findValue batch .SOIL_MOISTURE).isSome = true := by
  constructor
  · intro h
    obtain ⟨r, hr⟩ := Option.isSome_iff_exists.mp h
    obtain ⟨t, hu, m, hT, hH, hM, _⟩ := analyze_data_inv hr
    simp [hT, hH, hM]
  · rintro ⟨hT, hH, hM⟩
    obtain ⟨t, ht⟩ := Option.isSome_iff_exists.mp hT
    obtain ⟨hu, hhu⟩ := Option.isSome_iff_exists.mp hH
    obtain ⟨m, hm⟩ := Option.isSome_iff_exists.mp hM
    rw [analyze_data_eq ht hhu hm]
    rfl

/-! Facts about the decision rules. -/

theorem setTrue_apply (st : ActuatorState) (a b : ActuatorType) :
    setTrue st a b = (st b || decide (b = a)) := by
  unfold setTrue
  by_cases h : b = a <;> simp [h]

theorem control_spec {r : AnalysisResult} {st : ActuatorState} {v : ℚ}
    (hco2 : findValue r.raw_data SensorType.CO2_LEVEL = some v) :
    control_actuators r st = Except.ok (fun a => st a || ruleFires r v a) := by
  unfold control_actuators
  rw [hco2]
  refine congrArg Except.ok (funext fun a => ?_)
  cases a <;>
    by_cases h1 : r.predictions.irrigation_needed = true <;>
      by_cases h2 : r.metrics.heat_index > 30 <;>
        by_cases h3 : r.metrics.dew_point > 25 <;>
          by_cases h4 : v < 400 <;>
            simp [setTrue_apply, ruleFires, h1, h2, h3, h4]

theorem control_error_spec {r : AnalysisResult} {st : ActuatorState}
    (hco2 : findValue r.raw_data SensorType.CO2_LEVEL = none) :
    control_actuators r st = Except.error (fun a => st a || ruleFires3 r a) := by
  unfold control_actuators
  rw [hco2]
  refine congrArg Except.error (funext fun a => ?_)
  cases a <;>
    by_cases h1 : r.predictions.irrigation_needed = true <;>
      by_cases h2 : r.metrics.heat_index > 30 <;>
        by_cases h3 : r.metrics.dew_point > 25 <;>
          simp [setTrue_apply, ruleFires3, h1, h2, h3]

/-! The claims. -/

/-- Claim C1 fails as stated: a batch holding exactly one Temperature reading
(value 25) and exactly one Humidity reading (value 60) but no SoilMoisture
reading makes `analyze_data` raise `StopIteration` (modelled as `none`)
instead of returning metrics, because the soil-moisture lookup precedes the
metric computation. -/
theorem c1_counterexample :
    ((batchTH.filter fun d => decide (d.sensor_type = SensorType.TEMPERATURE)).map
        Reading.value = [25] ∧
      (batchTH.filter fun d => decide (d.sensor_type = SensorType.HUMIDITY)).map
        Reading.value = [60]) ∧
    analyze_data batchTH 0 = none :=
  ⟨⟨rfl, rfl⟩, rfl⟩

/-- Claim C1 (amended): for every batch containing exactly one Temperature reading
with value t, exactly one Humidity reading with value hu, and at least one
SoilMoisture reading, `analyze_data` returns metrics with
dew_point = round(t - (100 - hu) / 5, 1) and
heat_index = round(t + hu * 0.1, 1); the formulas mention only (t, hu), so
the two metrics depend only on the temperature and humidity values. -/
theorem c1_dew_heat (batch : List Reading) (t hu cs : ℚ)
    (hT : (batch.filter fun d => decide (d.sensor_type = SensorType.TEMPERATURE)).map
        Reading.value = [t])
    (hH : (batch.filter fun d => decide (d.sensor_type = SensorType.HUMIDITY)).map
        Reading.value = [hu])
    (hM : ∃ d ∈ batch, d.sensor_type = SensorType.SOIL_MOISTURE) :
    ∃ r, analyze_data batch cs = some r ∧
      r.metrics.dew_point = round1 (t - (100 - hu) / 5) ∧
      r.metrics.heat_index = round1 (t + hu * (1/10)) := by
  obtain ⟨m, hm⟩ := Option.isSome_iff_exists.mp
    ((findValue_isSome_iff batch SensorType.SOIL_MOISTURE).mpr hM)
  exact ⟨_, analyze_data_eq (findValue_of_filter hT) (findValue_of_filter hH) hm, rfl, rfl⟩

/-- Claim C1 witness: on the concrete batch with temperature 25 and humidity 60 the
metrics come out as dew_point 17 and heat_index 31. -/
theorem c1_dew_heat_witness :
    ∃ r, analyze_data batchTHM 0 = some r ∧
      r.metrics.dew_point = 17 ∧ r.metrics.heat_index = 31 := by
  obtain ⟨r, hr, hd, hh⟩ := c1_dew_heat batchTHM 25 60 0 rfl rfl
    ⟨{ sensor_type := .SOIL_MOISTURE, value := 50, unit := "%", timestamp := "t0" },
      by simp [batchTHM], rfl⟩
  refine ⟨r, hr, ?_, ?_⟩
  · rw [hd]
    have he : (25 : ℚ) - (100 - 60) / 5 = ((17 : ℤ) : ℚ) := by norm_num
    rw [he, round1_intCast]
    norm_num
  · rw [hh]
    have he : (25 : ℚ) + 60 * (1/10) = ((31 : ℤ) : ℚ) := by norm_num
    rw [he, round1_intCast]
    norm_num

/-- Claim C2: whenever `analyze_data` succeeds with crop-stress draw cs, the
predictions carry irrigation_needed = (cs > 0.7) and optimal_watering ASAP
exactly when cs > 0.7, else "6h" (the source's encoding of Within6h); at the
boundary cs = 0.7 the comparison is strict, so irrigation_needed is false and
the watering answer is "6h". -/
theorem c2_strict_threshold (batch : List Reading) (cs : ℚ) (r : AnalysisResult)
    (h : analyze_data batch cs = some r) :
    r.predictions.crop_stress_risk = cs ∧
    r.predictions.irrigation_needed = decide (cs > 7/10) ∧
    r.predictions.optimal_watering = (if cs > 7/10 then "ASAP" else "6h") ∧
    (cs = 7/10 → r.predictions.irrigation_needed = false ∧
      r.predictions.optimal_watering = "6h") := by
  obtain ⟨t, hu, m, _, _, _, hr⟩ := analyze_data_inv h
  subst hr
  refine ⟨rfl, rfl, rfl, ?_⟩
  intro hcs
  subst hcs
  have hn : ¬ ((7:ℚ)/10 > 7/10) := lt_irrefl _
  exact ⟨by simp [hn], by simp [hn]⟩

/-- Claim C2 witness: a run at the boundary draw cs = 0.7 exactly. -/
theorem c2_strict_threshold_witness :
    ∃ r, analyze_data batchTHM (7/10) = some r ∧
      r.predictions.irrigation_needed = false ∧
      r.predictions.optimal_watering = "6h" := by
  have h := @analyze_data_eq batchTHM 25 60 50 (7/10) rfl rfl rfl
  obtain ⟨_, _, _, hb⟩ := c2_strict_threshold batchTHM (7/10) _ h
  exact ⟨_, h, (hb rfl).1, (hb rfl).2⟩

/-- Claim C3: when the analysed batch carries a CO2 reading with value v,
`control_actuators` completes and the new state turns Irrigation on iff
irrigation_needed (or it was already on), Cooling iff heat_index > 30,
Ventilation iff dew_point > 25, FertilizerDoser iff v < 400, and never turns
any actuator off. -/
theorem c3_rules (r : AnalysisResult) (st : ActuatorState) (v : ℚ)
    (hco2 : findValue r.raw_data SensorType.CO2_LEVEL = some v) :
    ∃ st2, control_actuators r st = Except.ok st2 ∧
      st2 ActuatorType.IRRIGATION
        = (st ActuatorType.IRRIGATION || r.predictions.irrigation_needed) ∧
      st2 ActuatorType.COOLING
        = (st ActuatorType.COOLING || decide (r.metrics.heat_index > 30)) ∧
      st2 ActuatorType.VENTILATION
        = (st ActuatorType.VENTILATION || decide (r.metrics.dew_point > 25)) ∧
      st2 ActuatorType.FERTILIZER_DOSER
        = (st ActuatorType.FERTILIZER_DOSER || decide (v < 400)) ∧
      ∀ a, st a = true → st2 a = true := by
  refine ⟨_, control_spec hco2, rfl, rfl, rfl, rfl, ?_⟩
  intro a ha
  simp [ha]

/-- Claim C3 witness: the rules applied to a concrete result over `batchFull`. -/
theorem c3_rules_witness :
    ∃ st2, control_actuators resultCalm initActuators = Except.ok st2 ∧
      st2 ActuatorType.IRRIGATION
        = (initActuators ActuatorType.IRRIGATION
            || resultCalm.predictions.irrigation_needed) ∧
      st2 ActuatorType.COOLING
        = (initActuators ActuatorType.COOLING
            || decide (resultCalm.metrics.heat_index > 30)) ∧
      st2 ActuatorType.VENTILATION
        = (initActuators ActuatorType.VENTILATION
            || decide (resultCalm.metrics.dew_point > 25)) ∧
      st2 ActuatorType.FERTILIZER_DOSER
        = (initActuators ActuatorType.FERTILIZER_DOSER || decide ((500:ℚ) < 400)) ∧
      ∀ a, initActuators a = true → st2 a = true :=
  c3_rules resultCalm initActuators 500 rfl

/-- Claim C4: `control_actuators` is a latch — an actuator that is on before a call
is still on afterwards, whether the call completes or raises on a missing CO2
reading — and is idempotent: a second call with the same analysis result
returns the state of the first unchanged. -/
theorem c4_latch_idempotent (r : AnalysisResult) (st : ActuatorState) :
    (∀ a, st a = true → afterState (control_actuators r st) a = true) ∧
    (∀ st2, control_actuators r st = Except.ok st2 →
      control_actuators r st2 = Except.ok st2) := by
  constructor
  · intro a ha
    cases hc : findValue r.raw_data SensorType.CO2_LEVEL with
    | none => rw [control_error_spec hc]; simp [afterState, ha]
    | some v => rw [control_spec hc]; simp [afterState, ha]
  · intro st2 h2
    cases hc : findValue r.raw_data SensorType.CO2_LEVEL with
    | none =>
      rw [control_error_spec hc] at h2
      exact Except.noConfusion h2
    | some v =>
      rw [control_spec hc] at h2
      have hst : st2 = fun a => st a || ruleFires r v a := (Except.ok.inj h2).symm
      subst hst
      rw [control_spec hc]
      refine congrArg Except.ok (funext fun a => ?_)
      simp [Bool.or_assoc]

/-- Claim C4 witness: with Irrigation latched on and a result firing no rule, the
call keeps Irrigation on and a repeated call returns the identical state. -/
theorem c4_latch_idempotent_witness :
    afterState (control_actuators resultCalm stIrrOn) ActuatorType.IRRIGATION = true ∧
    control_actuators resultCalm stIrrOn = Except.ok stIrrOn :=
  ⟨(c4_latch_idempotent resultCalm stIrrOn).1 ActuatorType.IRRIGATION rfl,
   (c4_latch_idempotent resultCalm stIrrOn).2 stIrrOn rfl⟩

/-- Claim C5: `business_report` appends its argument to History on every call,
emits a Summary exactly when the new History length is a multiple of 5, and
any emitted Summary has totalCount equal to the History length,
recentStressLevels equal to the crop-stress values of exactly the last 3
entries, and the fixed advisory string; History is never pruned (the new
History is always the old one with the argument appended). -/
theorem c5_every_fifth_summary (pd : AnalysisResult) (hist : List AnalysisResult) :
    (business_report pd hist).1 = hist ++ [pd] ∧
    ((business_report pd hist).2.isSome = true ↔ (hist ++ [pd]).length % 5 = 0) ∧
    ∀ sm, (business_report pd hist).2 = some sm →
      sm.totalCount = (hist ++ [pd]).length ∧
      sm.recentStressLevels = ((hist ++ [pd]).drop ((hist ++ [pd]).length - 3)).map
        (fun d => d.predictions.crop_stress_risk) ∧
      sm.recentStressLevels.length = 3 ∧
      sm.advisory = "Check irrigation valves" := by
  unfold business_report
  by_cases h5 : (hist ++ [pd]).length % 5 = 0
  · refine ⟨rfl, by simp [h5], ?_⟩
    intro sm hsm
    simp only [h5, if_pos] at hsm
    have hsm2 := Option.some_inj.mp hsm
    subst hsm2
    refine ⟨rfl, rfl, ?_, rfl⟩
    have hlen : (hist ++ [pd]).length = hist.length + 1 := by simp
    rw [List.length_map, List.length_drop]
    omega
  · refine ⟨rfl, by simp [h5], ?_⟩
    intro sm hsm
    simp at hsm
    have h5n : ¬(hist.length + 1) % 5 = 0 := by simpa using h5
    exact absurd hsm.1 h5n

/-- Claim C5 witness: the fifth record emits a Summary with totalCount 5, the
stress values of the last three entries, and the fixed advisory. -/
theorem c5_every_fifth_summary_witness :
    Summary.totalCount ⟨5, [0, 0, 0], "Check irrigation valves"⟩
        = (List.replicate 4 sampleResult ++ [sampleResult]).length ∧
    Summary.recentStressLevels ⟨5, [0, 0, 0], "Check irrigation valves"⟩
        = ((List.replicate 4 sampleResult ++ [sampleResult]).drop
            ((List.replicate 4 sampleResult ++ [sampleResult]).length - 3)).map
          (fun d => d.predictions.crop_stress_risk) ∧
    (Summary.recentStressLevels ⟨5, [0, 0, 0], "Check irrigation valves"⟩).length = 3 ∧
    Summary.advisory ⟨5, [0, 0, 0], "Check irrigation valves"⟩
        = "Check irrigation valves" :=
  (c5_every_fifth_summary sampleResult (List.replicate 4 sampleResult)).2.2
    ⟨5, [0, 0, 0], "Check irrigation valves"⟩ rfl

/-- Claim C6: `cloud_sync` appends its argument to the pending buffer on every
call, emits a SyncReport exactly when the new buffer length is a multiple of
cloud_sync_interval (which is 5), every emitted report carries
uploadedCount = cloud_sync_interval, and the buffer is never drained (the new
buffer is always the old one with the argument appended). -/
theorem c6_cloud_sync_cadence (pd : AnalysisResult) (db : List AnalysisResult) :
    cloud_sync_interval = 5 ∧
    (cloud_sync pd db).1 = db ++ [pd] ∧
    ((cloud_sync pd db).2.isSome = true ↔
      (db ++ [pd]).length % cloud_sync_interval = 0) ∧
    ∀ rep, (cloud_sync pd db).2 = some rep →
      rep.uploadedCount = cloud_sync_interval := by
  unfold cloud_sync
  by_cases h5 : (db ++ [pd]).length % cloud_sync_interval = 0
  · refine ⟨rfl, rfl, by simp [h5], ?_⟩
    intro rep hrep
    simp only [h5, if_pos] at hrep
    have hrep2 := Option.some_inj.mp hrep
    subst hrep2
    rfl
  · refine ⟨rfl, rfl, by simp [h5], ?_⟩
    intro rep hrep
    simp at hrep
    rw [← hrep.2]

/-- Claim C6 witness: the fifth record emits a report with uploadedCount 5. -/
theorem c6_cloud_sync_cadence_witness :
    SyncReport.uploadedCount ⟨5⟩ = cloud_sync_interval :=
  (c6_cloud_sync_cadence sampleResult (List.replicate 4 sampleResult)).2.2.2 ⟨5⟩ rfl

/-- Claim C7 fails as stated: `batchTHM` contains no CO2 reading, yet `analyze_data`
succeeds on it — the source only looks up Temperature, Humidity and
SoilMoisture, so a batch is not required to contain all four kinds. -/
theorem c7_counterexample :
    (batchTHM.filter fun d => decide (d.sensor_type = SensorType.CO2_LEVEL)) = [] ∧
    (analyze_data batchTHM 0).isSome = true :=
  ⟨rfl, rfl⟩

/-- Claim C7 (amended): `analyze_data` succeeds exactly on batches containing at
least one Temperature, one Humidity and one SoilMoisture reading; CO2 is not
required, and on a batch missing one of the three kinds it fails (with an
unnamed `StopIteration` from the exhausted generator, not a
`MissingReadingError` naming the kind). -/
theorem c7_success_iff (batch : List Reading) (cs : ℚ) :
    (analyze_data batch cs).isSome = true ↔
      (∃ d ∈ batch, d.sensor_type = SensorType.TEMPERATURE) ∧
      (∃ d ∈ batch, d.sensor_type = SensorType.HUMIDITY) ∧
      (∃ d ∈ batch, d.sensor_type = SensorType.SOIL_MOISTURE) := by
  rw [analyze_data_isSome, findValue_isSome_iff, findValue_isSome_iff,
    findValue_isSome_iff]

/-- Claim C8: when the analysis stage fails, the exception propagates before the
decision, aggregation and batch-sync stages run, so the actuator state, the
History list and the pending buffer after the cycle all equal their pre-cycle
values. -/
theorem c8_failed_analysis_atomic (sensor_data : List Reading) (cs : ℚ) (s : SysState)
    (h : analyze_data sensor_data cs = none) :
    runCycle sensor_data cs s = Except.error s ∧
    ∀ s2, runCycle sensor_data cs s = Except.error s2 →
      s2.actuators = s.actuators ∧ s2.history = s.history ∧
        s2.local_db = s.local_db := by
  have he : runCycle sensor_data cs s = Except.error s := by
    unfold runCycle
    rw [h]
  refine ⟨he, ?_⟩
  intro s2 h2
  rw [he] at h2
  have h3 := (Except.error.inj h2).symm
  subst h3
  exact ⟨rfl, rfl, rfl⟩

/-- Claim C8 witness: an empty batch fails analysis and leaves the initial system
state untouched. -/
theorem c8_failed_analysis_atomic_witness :
    runCycle [] 0 ⟨initActuators, [], []⟩ = Except.error ⟨initActuators, [], []⟩ ∧
    SysState.actuators ⟨initActuators, [], []⟩ = initActuators :=
  ⟨(c8_failed_analysis_atomic [] 0 ⟨initActuators, [], []⟩ rfl).1,
   ((c8_failed_analysis_atomic [] 0 ⟨initActuators, [], []⟩ rfl).2
      ⟨initActuators, [], []⟩
      (c8_failed_analysis_atomic [] 0 ⟨initActuators, [], []⟩ rfl).1).1⟩

/-- Claim C9: every batch from `read_sensors` has exactly one reading per catalog
kind, all stamped with the shared timestamp and the kind's unit, and — when
the injected draws respect the catalog ranges, as uniform(min, max) does —
every value still lies in its kind's [min, max] range after rounding to one
decimal place. -/
theorem c9_read_sensors (draw : SensorType → ℚ) (ts : String)
    (hdraw : ∀ s : SensorType,
      (SENSORS s).min ≤ draw s ∧ draw s ≤ (SENSORS s).max) :
    (∀ s : SensorType,
      ((read_sensors draw ts).countP fun d => decide (d.sensor_type = s)) = 1) ∧
    ∀ d ∈ read_sensors draw ts,
      d.timestamp = ts ∧
      d.unit = (SENSORS d.sensor_type).unit ∧
      (SENSORS d.sensor_type).min ≤ d.value ∧
      d.value ≤ (SENSORS d.sensor_type).max := by
  constructor
  · intro s
    cases s <;> rfl
  · intro d hd
    simp only [read_sensors, sensorOrder, List.map_cons, List.map_nil,
      List.mem_cons, List.not_mem_nil, or_false] at hd
    rcases hd with rfl | rfl | rfl | rfl | rfl
    · refine ⟨rfl, rfl, ?_, ?_⟩
      · show (20:ℚ) ≤ round1 (draw SensorType.TEMPERATURE)
        have h1 : ((20:ℕ):ℚ) ≤ draw SensorType.TEMPERATURE := by
          exact_mod_cast (hdraw SensorType.TEMPERATURE).1
        exact_mod_cast round1_natCast_le h1
      · show round1 (draw SensorType.TEMPERATURE) ≤ (30:ℚ)
        have h2 : draw SensorType.TEMPERATURE ≤ ((30:ℕ):ℚ) := by
          exact_mod_cast (hdraw SensorType.TEMPERATURE).2
        exact_mod_cast round1_le_natCast h2
    · refine ⟨rfl, rfl, ?_, ?_⟩
      · show (30:ℚ) ≤ round1 (draw SensorType.SOIL_MOISTURE)
        have h1 : ((30:ℕ):ℚ) ≤ draw SensorType.SOIL_MOISTURE := by
          exact_mod_cast (hdraw SensorType.SOIL_MOISTURE).1
        exact_mod_cast round1_natCast_le h1
      · show round1 (draw SensorType.SOIL_MOISTURE) ≤ (70:ℚ)
        have h2 : draw SensorType.SOIL_MOISTURE ≤ ((70:ℕ):ℚ) := by
          exact_mod_cast (hdraw SensorType.SOIL_MOISTURE).2
        exact_mod_cast round1_le_natCast h2
    · refine ⟨rfl, rfl, ?_, ?_⟩
      · show (0:ℚ) ≤ round1 (draw SensorType.LIGHT_INTENSITY)
        have h1 : ((0:ℕ):ℚ) ≤ draw SensorType.LIGHT_INTENSITY := by
          exact_mod_cast (hdraw SensorType.LIGHT_INTENSITY).1
        exact_mod_cast round1_natCast_le h1
      · show round1 (draw SensorType.LIGHT_INTENSITY) ≤ (100:ℚ)
        have h2 : draw SensorType.LIGHT_INTENSITY ≤ ((100:ℕ):ℚ) := by
          exact_mod_cast (hdraw SensorType.LIGHT_INTENSITY).2
        exact_mod_cast round1_le_natCast h2
    · refine ⟨rfl, rfl, ?_, ?_⟩
      · show (300:ℚ) ≤ round1 (draw SensorType.CO2_LEVEL)
        have h1 : ((300:ℕ):ℚ) ≤ draw SensorType.CO2_LEVEL := by
          exact_mod_cast (hdraw SensorType.CO2_LEVEL).1
        exact_mod_cast round1_natCast_le h1
      · show round1 (draw SensorType.CO2_LEVEL) ≤ (1000:ℚ)
        have h2 : draw SensorType.CO2_LEVEL ≤ ((1000:ℕ):ℚ) := by
          exact_mod_cast (hdraw SensorType.CO2_LEVEL).2
        exact_mod_cast round1_le_natCast h2
    · refine ⟨rfl, rfl, ?_, ?_⟩
      · show (40:ℚ) ≤ round1 (draw SensorType.HUMIDITY)
        have h1 : ((40:ℕ):ℚ) ≤ draw SensorType.HUMIDITY := by
          exact_mod_cast (hdraw SensorType.HUMIDITY).1
        exact_mod_cast round1_natCast_le h1
      · show round1 (draw SensorType.HUMIDITY) ≤ (80:ℚ)
        have h2 : draw SensorType.HUMIDITY ≤ ((80:ℕ):ℚ) := by
          exact_mod_cast (hdraw SensorType.HUMIDITY).2
        exact_mod_cast round1_le_natCast h2

/-- Claim C9 witness: drawing every sensor's minimum satisfies the contract. -/
theorem c9_read_sensors_witness :
    (∀ s : SensorType,
      ((read_sensors draw0 "t0").countP fun d => decide (d.sensor_type = s)) = 1) ∧
    ∀ d ∈ read_sensors draw0 "t0",
      d.timestamp = "t0" ∧
      d.unit = (SENSORS d.sensor_type).unit ∧
      (SENSORS d.sensor_type).min ≤ d.value ∧
      d.value ≤ (SENSORS d.sensor_type).max :=
  c9_read_sensors draw0 "t0"
    (by intro s; cases s <;> exact ⟨le_refl _, by norm_num [SENSORS, draw0]⟩)

/-- Claim C10: on a batch with Temperature, Humidity and SoilMoisture but no CO2
reading, `analyze_data` returns normally and the subsequent
`control_actuators` call mutates the actuator state (here Cooling goes on,
heat index 31 > 30) before raising on the missing CO2 lookup — the failure
happens in the decision stage and is not atomic with respect to the actuator
state. -/
theorem c10_decision_stage_failure :
    (batchTHM.filter fun d => decide (d.sensor_type = SensorType.CO2_LEVEL)) = [] ∧
    ∃ r, analyze_data batchTHM 0 = some r ∧
      ∃ st2, control_actuators r initActuators = Except.error st2 ∧
        st2 ActuatorType.COOLING = true ∧
        initActuators ActuatorType.COOLING = false := by
  refine ⟨rfl, _, @analyze_data_eq batchTHM 25 60 50 0 rfl rfl rfl, _,
    control_error_spec rfl, ?_, rfl⟩
  have hh : round1 ((25:ℚ) + 60 * (1/10)) = 31 := by
    have he : (25 : ℚ) + 60 * (1/10) = ((31 : ℤ) : ℚ) := by norm_num
    rw [he, round1_intCast]
    norm_num
  simp only [ruleFires3, initActuators, Bool.false_or]
  rw [hh]
  simp only [decide_eq_true_eq]
  norm_num

end Iot
